import Mathlib

/-!
Verification of the detection-and-dispatch engine of sidikajabar/curur.

The engine lives in src/alert_service.py (class AlertService) with the
upstream fetch in src/dexscreener_client.py (class DexScreenerClient).
Python floats are modelled as rationals, optional fields as Option, and
the per-pair dictionaries previous_prices / previous_volumes as maps
from addresses to optional rationals.  Python truthiness tests such as
`if pair.volume_24h:` are modelled explicitly: a value is truthy when it
is present and nonzero.
-/

namespace Curur

/-- Model of the Python string field price_usd as it flows through
float(...): the constructor parsed holds a nonempty string that parses
as a float, malformed is a nonempty string on which float raises
ValueError, and the surrounding Option none covers both Python None and
the empty string (both falsy, so the code never parses them). -/
inductive PyStrFloat where
  | parsed (q : ℚ)
  | malformed
  deriving DecidableEq, Repr

/-- Trading pair snapshot, from the dataclass TokenPair in
src/dexscreener_client.py.  Display-only metadata fields (dex id, quote
token, url, transaction counts, fdv, market cap, 5m/6h/24h changes,
price_native) are omitted: the engine rules and cycle never read them.
The creation timestamp pair_created_at is kept as an optional timestamp
in seconds; get_age_minutes combines it with the current time. -/
structure TokenPair where
  chain_id : String
  pair_address : String
  base_token_symbol : String
  base_token_name : String
  price_usd : Option PyStrFloat
  volume_24h : Option ℚ
  liquidity_usd : Option ℚ
  price_change_1h : Option ℚ
  pair_created_at : Option ℚ
  deriving DecidableEq, Repr

/-- Age of the pair in minutes, from TokenPair.get_age_minutes.  The
Python code tests `if self.pair_created_at:`; datetime objects are
always truthy, so presence alone decides.  now is the value of
datetime.now() expressed as a timestamp in seconds. -/
def get_age_minutes (now : ℚ) (p : TokenPair) : Option ℚ :=
  match p.pair_created_at with
  | some t => some ((now - t) / 60)
  | none => none

/-- Modelled from the spec: the configuration surface of section 6
(config.py is not under src/).  Only the knobs read by the alert engine
are kept; each is a configured rational. -/
structure Config where
  MIN_LIQUIDITY_USD : ℚ
  NEW_PAIR_AGE_MINUTES : ℚ
  PRICE_CHANGE_THRESHOLD : ℚ
  MIN_VOLUME_USD : ℚ
  deriving DecidableEq, Repr

/-- Python truthiness of an optional float: False for None and for 0. -/
def optTruthy (v : Option ℚ) : Bool :=
  match v with
  | none => false
  | some x => x != 0

/-- Alert type string constants from class AlertType. -/
def AlertType.NEW_PAIR : String := "new_pair"

/-- Alert type string constant price_pump. -/
def AlertType.PRICE_PUMP : String := "price_pump"

/-- Alert type string constant price_dump. -/
def AlertType.PRICE_DUMP : String := "price_dump"

/-- Alert type string constant high_volume. -/
def AlertType.HIGH_VOLUME : String := "high_volume"

/-- Alert record, from class TokenAlert.  The human-readable message and
the creation timestamp are display-only (the message involves Python
float formatting) and are not modelled; alert_type, the originating
pair and the priority are what the claims and the dispatcher observe. -/
structure TokenAlert where
  alert_type : String
  pair : TokenPair
  priority : ℕ
  deriving DecidableEq, Repr

/-- Modelled from the spec: the durable store behind DatabaseManager
(database.py is not under src/).  seen is the durable set of pair
addresses already alerted on as new, kept as a duplicate-free list;
get_seen_pair_addresses returns it and mark_token_seen inserts into it
idempotently, as required by section 6. -/
structure DbState where
  seen : List String
  deriving DecidableEq, Repr

/-- Modelled from the spec: mark_seen is an idempotent insert into the
durable seen set.  The symbol and name arguments are stored metadata
with no effect on membership. -/
def mark_token_seen (db : DbState) (addr _symbol _name : String) : DbState :=
  if addr ∈ db.seen then db else { db with seen := db.seen ++ [addr] }

/-- Alert recipient, opaque to the engine (a subscription row passed
through unchanged to the dispatch callback). -/
abbrev Subscription := String

/-- Per-address map of previously recorded values. -/
abbrev PrevMap := String → Option ℚ

/-- Empty previous-state map. -/
def PrevMap.empty : PrevMap := fun _ => none

/-- Pointwise update of a previous-state map, modelling a Python dict
assignment. -/
def PrevMap.set (m : PrevMap) (k : String) (v : ℚ) : PrevMap :=
  fun a => if a = k then some v else m a

/-- In-memory engine state: the two dictionaries previous_prices and
previous_volumes owned by AlertService. -/
structure ServiceState where
  previous_prices : PrevMap
  previous_volumes : PrevMap

/-- Engine state with both maps empty, as in AlertService.__init__. -/
def ServiceState.empty : ServiceState := ⟨PrevMap.empty, PrevMap.empty⟩

/-- New-pair rule, from AlertService._check_new_pair.  The liquidity
guard is the Python test
`if pair.liquidity_usd and pair.liquidity_usd < config.MIN_LIQUIDITY_USD`,
hence the truthiness conjunct; the age guard rejects only when the age
is known and above the window. -/
def check_new_pair (cfg : Config) (now : ℚ) (pair : TokenPair) : Option TokenAlert :=
  if optTruthy pair.liquidity_usd ∧ pair.liquidity_usd.getD 0 < cfg.MIN_LIQUIDITY_USD then
    none
  else
    match get_age_minutes now pair with
    | some age =>
      if age > cfg.NEW_PAIR_AGE_MINUTES then none
      else some ⟨AlertType.NEW_PAIR, pair, 2⟩
    | none => some ⟨AlertType.NEW_PAIR, pair, 2⟩

/-- Price-movement rule, from AlertService._check_price_movement.  The
Python guard is `if pair.price_change_1h is None`, an identity test,
so a present value of 0 is still examined. -/
def check_price_movement (cfg : Config) (pair : TokenPair) : Option TokenAlert :=
  match pair.price_change_1h with
  | none => none
  | some c =>
    if c ≥ cfg.PRICE_CHANGE_THRESHOLD then
      some ⟨AlertType.PRICE_PUMP, pair, 3⟩
    else if c ≤ -cfg.PRICE_CHANGE_THRESHOLD then
      some ⟨AlertType.PRICE_DUMP, pair, 1⟩
    else
      none

/-- Volume-spike rule, from AlertService._check_volume_spike.  The gate
is the Python test
`if not pair.volume_24h or pair.volume_24h < config.MIN_VOLUME_USD * 10`;
volumes is the live previous_volumes dictionary at the moment the rule
runs. -/
def check_volume_spike (cfg : Config) (volumes : PrevMap) (pair : TokenPair) :
    Option TokenAlert :=
  if ¬ optTruthy pair.volume_24h ∨ pair.volume_24h.getD 0 < cfg.MIN_VOLUME_USD * 10 then
    none
  else
    match volumes pair.pair_address with
    | none => none
    | some previous_volume =>
      if pair.volume_24h.getD 0 ≥ previous_volume * 2 then
        some ⟨AlertType.HIGH_VOLUME, pair, 2⟩
      else
        none

/-- Accumulator for the per-pair loop of _check_for_alerts: the two
live dictionaries, the durable store, and the local alerts list. -/
structure CycleAcc where
  prices : PrevMap
  volumes : PrevMap
  db : DbState
  alerts : List TokenAlert

/-- Rule-evaluation half of the loop body of _check_for_alerts (lines
147-161): the branch on membership in the seen set loaded at the start
of the cycle, the collection of rule alerts, and the mark-seen write on
an emitted new-pair alert.  The volume rule reads the accumulator map,
which carries writes made by earlier iterations of the same loop. -/
def eval_rules (cfg : Config) (now : ℚ) (seen_addresses : List String)
    (acc : CycleAcc) (pair : TokenPair) : CycleAcc :=
  if pair.pair_address ∈ seen_addresses then
    let acc' :=
      match check_price_movement cfg pair with
      | some a => { acc with alerts := acc.alerts ++ [a] }
      | none => acc
    match check_volume_spike cfg acc'.volumes pair with
    | some a => { acc' with alerts := acc'.alerts ++ [a] }
    | none => acc'
  else
    match check_new_pair cfg now pair with
    | some a =>
      { acc with
          alerts := acc.alerts ++ [a],
          db := mark_token_seen acc.db pair.pair_address
                  pair.base_token_symbol pair.base_token_name }
    | none => acc

/-- State-update half of the loop body of _check_for_alerts (lines
163-170): the truthiness-guarded writes of previous_prices (with the
ValueError of float() swallowed) and previous_volumes. -/
def update_prev (acc : CycleAcc) (pair : TokenPair) : CycleAcc :=
  let acc2 :=
    match pair.price_usd with
    | some (PyStrFloat.parsed q) =>
      { acc with prices := acc.prices.set pair.pair_address q }
    | some PyStrFloat.malformed => acc
    | none => acc
  if optTruthy pair.volume_24h then
    { acc2 with volumes := acc2.volumes.set pair.pair_address (pair.volume_24h.getD 0) }
  else
    acc2

/-- Body of the for-loop of AlertService._check_for_alerts (lines
146-170) for one pair: rule evaluation for this pair, then the
unconditional pass over the truthiness-guarded state updates. -/
def process_pair (cfg : Config) (now : ℚ) (seen_addresses : List String)
    (acc : CycleAcc) (pair : TokenPair) : CycleAcc :=
  update_prev (eval_rules cfg now seen_addresses acc pair) pair

/-- Result of one cycle: the in-memory state, the durable store, and
the alerts handed to _send_alert in order. -/
structure CycleOut where
  st : ServiceState
  db : DbState
  dispatched : List TokenAlert

/-- One full cycle, from AlertService._check_for_alerts.  An empty
fetch result returns immediately; the seen set and the subscription
list are loaded once; an empty subscription list returns immediately;
otherwise the per-pair loop runs and every collected alert is passed to
_send_alert.  Delivery failures inside _send_alert are caught per
alert, so dispatched records the attempted deliveries. -/
def check_for_alerts (cfg : Config) (now : ℚ) (pairs : List TokenPair)
    (subscriptions : List Subscription) (st : ServiceState) (db : DbState) : CycleOut :=
  if pairs.isEmpty then ⟨st, db, []⟩
  else
    let seen_addresses := db.seen
    if subscriptions.isEmpty then ⟨st, db, []⟩
    else
      let acc := pairs.foldl (process_pair cfg now seen_addresses)
        ⟨st.previous_prices, st.previous_volumes, db, []⟩
      ⟨⟨acc.prices, acc.volumes⟩, acc.db, acc.alerts⟩

/-!
Upstream fetch, from src/dexscreener_client.py.  The HTTP layer is
modelled by the observable outcome of one GET: either a response with a
status code and a parsed JSON body, or an exception raised during the
request.  The body is modelled post-parse: the optional pairs key holds
already-constructed TokenPair records.
-/

/-- Parsed JSON body of a search response.  pairs is none when the body
is falsy or lacks a pairs key, matching the Python test
`if data and "pairs" in data`. -/
structure SearchData where
  pairs : Option (List TokenPair)
  deriving DecidableEq, Repr

/-- Outcome of one HTTP GET against the DexScreener API. -/
inductive HttpOutcome where
  | ok (status : ℕ) (body : SearchData)
  | exn
  deriving DecidableEq, Repr

/-- Request wrapper, from DexScreenerClient._make_request: a 200
response yields the parsed body, any other status is logged and yields
None, and a raised exception is caught, logged, and yields None.  No
failure propagates as an error. -/
def make_request (o : HttpOutcome) : Option SearchData :=
  match o with
  | .ok status body => if status = 200 then some body else none
  | .exn => none

/-- Search endpoint, from DexScreenerClient.search_pairs: keeps only
pairs on the configured chain, and returns the empty list whenever
make_request produced None or the body had no pairs key. -/
def search_pairs (chain_id : String) (o : HttpOutcome) : List TokenPair :=
  match make_request o with
  | some data =>
    match data.pairs with
    | some ps => ps.filter (fun p => p.chain_id = chain_id)
    | none => []
  | none => []

/-- Search queries issued by get_all_megaeth_pairs, in order. -/
def search_queries : List String := ["WETH", "ETH", "USD", "MEGA"]

/-- Snapshot fetch, from DexScreenerClient.get_all_megaeth_pairs: runs
the four searches, keeps pairs on the configured chain, and appends
each pair whose address is not already present.  fetch gives the HTTP
outcome of the search for each query. -/
def get_all_megaeth_pairs (chain_id : String) (fetch : String → HttpOutcome) :
    List TokenPair :=
  search_queries.foldl
    (fun all_pairs query =>
      (search_pairs chain_id (fetch query)).foldl
        (fun acc pair =>
          if pair.chain_id = chain_id ∧
              ¬ acc.any (fun p => p.pair_address = pair.pair_address) then
            acc ++ [pair]
          else acc)
        all_pairs)
    []

/-!
Cancellation model for AlertService.stop.

The monitor loop runs as an asyncio task.  stop (lines 112-121) sets
running to False and then calls cancel() on the task unconditionally,
followed by awaiting it.  Under asyncio, cancel() delivers a
CancelledError to the coroutine at the suspension point where it is
currently (or next) suspended; CancelledError derives from
BaseException, so the `except Exception` handler in _monitor_loop does
not catch it and the cycle body is abandoned at that point.

The model below replays _check_for_alerts with an explicit cancellation
budget: cancelAt = some k means cancel() finds the task at the k-th
await of the cycle, counting from the initial fetch; cancelAt = none
means no in-cycle cancellation (the cancel lands at the inter-cycle
sleep).  The awaits of one cycle, in program order, are: the fetch, the
seen-set load, the subscription load, one mark_token_seen per emitted
new-pair alert, and one _send_alert per collected alert.  Effects
performed before the cancelled await persist (the previous-state
dictionaries are attributes of the service object, and durable marks
already awaited are done); the cancelled await and everything after it
never run.
-/

/-- Advance the cancellation budget across one await: none means no
cancellation pending, some 0 means the CancelledError is raised at this
await, some (k+1) means this await completes with k awaits to go. -/
def awaitStep : Option ℕ → Option (Option ℕ)
  | none => some none
  | some 0 => none
  | some (k + 1) => some (some k)

/-- Accumulator of the cancellable per-pair loop. -/
structure CAcc where
  acc : CycleAcc
  fuel : Option ℕ
  aborted : Bool

/-- One iteration of the pair loop under the cancellation model.  The
only await inside the loop body is mark_token_seen, reached exactly
when a new-pair alert was produced; if the CancelledError lands there,
the mark, the trailing previous-state updates for this pair, and all
later iterations are abandoned.  All other branches perform no await
and have exactly the effects of process_pair. -/
def pair_step_cancel (cfg : Config) (now : ℚ) (seen_addresses : List String)
    (c : CAcc) (pair : TokenPair) : CAcc :=
  if c.aborted then c
  else if pair.pair_address ∈ seen_addresses then
    { c with acc := process_pair cfg now seen_addresses c.acc pair }
  else
    match check_new_pair cfg now pair with
    | none => { c with acc := process_pair cfg now seen_addresses c.acc pair }
    | some _ =>
      match awaitStep c.fuel with
      | none => { c with aborted := true }
      | some f => ⟨process_pair cfg now seen_addresses c.acc pair, f, false⟩

/-- Dispatch loop under the cancellation model: each _send_alert is one
await; a CancelledError landing on one of them abandons that delivery
and the rest.  Returns the delivered alerts, the remaining budget, and
whether the loop was aborted. -/
def send_loop_cancel : List TokenAlert → Option ℕ → List TokenAlert × Option ℕ × Bool
  | [], fuel => ([], fuel, false)
  | a :: rest, fuel =>
    match awaitStep fuel with
    | none => ([], fuel, true)
    | some f =>
      let r := send_loop_cancel rest f
      (a :: r.1, r.2.1, r.2.2)

/-- One cycle of _check_for_alerts under the cancellation model.  The
Bool records whether the cycle ran to natural completion; when it is
false the returned state holds exactly the effects performed before the
CancelledError. -/
def check_for_alerts_cancel (cfg : Config) (now : ℚ) (pairs : List TokenPair)
    (subscriptions : List Subscription) (st : ServiceState) (db : DbState)
    (cancelAt : Option ℕ) : CycleOut × Bool :=
  match awaitStep cancelAt with
  | none => (⟨st, db, []⟩, false)
  | some f0 =>
    if pairs.isEmpty then (⟨st, db, []⟩, true)
    else
      match awaitStep f0 with
      | none => (⟨st, db, []⟩, false)
      | some f1 =>
        let seen_addresses := db.seen
        match awaitStep f1 with
        | none => (⟨st, db, []⟩, false)
        | some f2 =>
          if subscriptions.isEmpty then (⟨st, db, []⟩, true)
          else
            let c := pairs.foldl (pair_step_cancel cfg now seen_addresses)
              ⟨⟨st.previous_prices, st.previous_volumes, db, []⟩, f2, false⟩
            if c.aborted then
              (⟨⟨c.acc.prices, c.acc.volumes⟩, c.acc.db, []⟩, false)
            else
              let s := send_loop_cancel c.acc.alerts c.fuel
              (⟨⟨c.acc.prices, c.acc.volumes⟩, c.acc.db, s.1⟩, !s.2.2)

/-!
Specification-side view of one cycle for the read-before-write claim:
every rule evaluated against the state as it was at the start of the
cycle.  This definition follows the words of the spec (section 5) and
is compared with check_for_alerts, which interleaves writes with later
evaluations.
-/

/-- Alerts one pair would produce when every rule reads the pre-cycle
previous-volumes map vol0 and the pre-cycle seen set. -/
def rule_alerts_precycle (cfg : Config) (now : ℚ) (seen_addresses : List String)
    (vol0 : PrevMap) (pair : TokenPair) : List TokenAlert :=
  if pair.pair_address ∈ seen_addresses then
    (check_price_movement cfg pair).toList ++ (check_volume_spike cfg vol0 pair).toList
  else
    (check_new_pair cfg now pair).toList

/-- Alerts of a whole cycle when every rule reads pre-cycle state, in
pair order. -/
def alerts_precycle (cfg : Config) (now : ℚ) (seen_addresses : List String)
    (vol0 : PrevMap) (pairs : List TokenPair) : List TokenAlert :=
  (pairs.map (rule_alerts_precycle cfg now seen_addresses vol0)).flatten

/-!
Concrete fixtures used by witnesses and counterexamples.
-/

/-- Configuration with minimum liquidity 100 USD, new-pair window 60
minutes, price threshold 10 percent, minimum volume floor 1000 USD. -/
def cfgW : Config := ⟨100, 60, 10, 1000⟩

/-- Already-seen pair at address A with 1h change exactly at the
threshold of cfgW and a 24h volume passing the spike gate. -/
def pairSeenA (v : ℚ) : TokenPair :=
  ⟨"megaeth", "A", "AAA", "TokenA", some (.parsed 5), some v, some 500, some 10, none⟩

/-- Unseen pair whose known liquidity is exactly 0, below the cfgW
minimum, with unknown age. -/
def zeroLiqPair : TokenPair :=
  ⟨"megaeth", "Z", "ZZZ", "TokenZ", none, none, some 0, none, none⟩

/-- Unseen pair with known nonzero liquidity below the cfgW minimum. -/
def lowLiqPair : TokenPair :=
  ⟨"megaeth", "L", "LLL", "TokenL", none, none, some 50, none, none⟩

/-- Already-seen pair at address A whose current 24h volume is present
and exactly 0. -/
def zeroVolPair : TokenPair :=
  ⟨"megaeth", "A", "AAA", "TokenA", some (.parsed 5), some 0, some 500, none, none⟩

/-- Engine state carrying a stale recorded volume of 100 for address A
from an earlier cycle. -/
def stalePrev : ServiceState :=
  ⟨PrevMap.empty, PrevMap.empty.set "A" 100⟩

/-!
Claim C2: the price-movement rule.
-/

/-- C2: for a snapshot with a present 1h change and a positive
configured threshold, the rule emits PricePump at priority 3 when the
change is at least the threshold, PriceDump at priority 1 when the
change is at most the negated threshold, nothing strictly inside the
open interval, the two firing conditions are mutually exclusive, and an
absent 1h change emits nothing. -/
theorem price_movement_threshold_boundary (cfg : Config) (pair : TokenPair)
    (ht : 0 < cfg.PRICE_CHANGE_THRESHOLD) :
    (∀ c, pair.price_change_1h = some c →
      ((cfg.PRICE_CHANGE_THRESHOLD ≤ c →
          check_price_movement cfg pair = some ⟨AlertType.PRICE_PUMP, pair, 3⟩) ∧
       (c ≤ -cfg.PRICE_CHANGE_THRESHOLD →
          check_price_movement cfg pair = some ⟨AlertType.PRICE_DUMP, pair, 1⟩) ∧
       (-cfg.PRICE_CHANGE_THRESHOLD < c → c < cfg.PRICE_CHANGE_THRESHOLD →
          check_price_movement cfg pair = none) ∧
       ¬ (cfg.PRICE_CHANGE_THRESHOLD ≤ c ∧ c ≤ -cfg.PRICE_CHANGE_THRESHOLD))) ∧
    (pair.price_change_1h = none → check_price_movement cfg pair = none) := by
  constructor
  · intro c hc
    refine ⟨?_, ?_, ?_, ?_⟩
    · intro h
      simp [check_price_movement, hc, h]
    · intro h
      have hlt : ¬ (cfg.PRICE_CHANGE_THRESHOLD ≤ c) := by
        intro hge
        have : cfg.PRICE_CHANGE_THRESHOLD ≤ -cfg.PRICE_CHANGE_THRESHOLD := le_trans hge h
        linarith
      simp [check_price_movement, hc, hlt, h]
    · intro h1 h2
      have hge : ¬ (cfg.PRICE_CHANGE_THRESHOLD ≤ c) := not_le.mpr h2
      have hle : ¬ (c ≤ -cfg.PRICE_CHANGE_THRESHOLD) := not_le.mpr h1
      simp [check_price_movement, hc, hge, hle]
    · rintro ⟨h1, h2⟩
      have : cfg.PRICE_CHANGE_THRESHOLD ≤ -cfg.PRICE_CHANGE_THRESHOLD := le_trans h1 h2
      linarith
  · intro hn
    simp [check_price_movement, hn]

/-- Witness for C2: with threshold 10 and 1h change exactly 10, the
rule fires PricePump at priority 3. -/
theorem price_movement_threshold_boundary_w :
    (0:ℚ) < cfgW.PRICE_CHANGE_THRESHOLD ∧
    check_price_movement cfgW (pairSeenA 200000)
      = some ⟨AlertType.PRICE_PUMP, pairSeenA 200000, 3⟩ := by
  refine ⟨by norm_num [cfgW], ?_⟩
  exact ((price_movement_threshold_boundary cfgW (pairSeenA 200000)
    (by norm_num [cfgW])).1 10 rfl).1 (by norm_num [cfgW])

/-!
Claim C3: the volume-spike rule.
-/

/-- C3: for an already-seen snapshot, the volume-spike rule emits
nothing when the 24h volume is absent or below ten times the configured
positive minimum-volume floor, nothing when no previous volume is
recorded for the address, and when a baseline exists and the gate
passes it emits exactly the HighVolume alert at priority 2 when the
current volume is at least twice the baseline and nothing otherwise. -/
theorem volume_spike_gate_baseline (cfg : Config) (volumes : PrevMap) (pair : TokenPair)
    (hmv : 0 < cfg.MIN_VOLUME_USD) :
    ((pair.volume_24h = none ∨
        (∃ v, pair.volume_24h = some v ∧ v < cfg.MIN_VOLUME_USD * 10)) →
      check_volume_spike cfg volumes pair = none) ∧
    (volumes pair.pair_address = none → check_volume_spike cfg volumes pair = none) ∧
    (∀ v b, pair.volume_24h = some v → cfg.MIN_VOLUME_USD * 10 ≤ v →
      volumes pair.pair_address = some b →
      ((b * 2 ≤ v →
          check_volume_spike cfg volumes pair = some ⟨AlertType.HIGH_VOLUME, pair, 2⟩) ∧
       (v < b * 2 → check_volume_spike cfg volumes pair = none))) := by
  refine ⟨?_, ?_, ?_⟩
  · rintro (hn | ⟨v, hv, hlt⟩)
    · simp [check_volume_spike, hn, optTruthy]
    · rcases eq_or_ne v 0 with h0 | h0
      · simp [check_volume_spike, hv, h0, optTruthy]
      · simp [check_volume_spike, hv, optTruthy, h0, hlt]
  · intro hb
    unfold check_volume_spike
    split
    · rfl
    · rw [hb]
  · intro v b hv hgate hb
    have hv0 : v ≠ 0 := by
      intro h
      rw [h] at hgate
      nlinarith
    have hguard : ¬ (¬ optTruthy pair.volume_24h = true ∨
        pair.volume_24h.getD 0 < cfg.MIN_VOLUME_USD * 10) := by
      rw [hv]
      simp [optTruthy, hv0]
      exact hgate
    constructor
    · intro hfire
      have : pair.volume_24h.getD 0 ≥ b * 2 := by rw [hv]; exact hfire
      simp only [check_volume_spike, if_neg hguard, hb, ge_iff_le, this, if_pos]
    · intro hlow
      have : ¬ (pair.volume_24h.getD 0 ≥ b * 2) := by
        rw [hv]
        exact not_le.mpr hlow
      simp only [check_volume_spike, if_neg hguard, hb, if_neg this]

/-- Witness for C3: floor 1000, volume 200000 passing the ten-times
gate, baseline 100000, so twice the baseline is reached and HighVolume
fires at priority 2. -/
theorem volume_spike_gate_baseline_w :
    (0:ℚ) < cfgW.MIN_VOLUME_USD ∧
    check_volume_spike cfgW (PrevMap.empty.set "A" 100000) (pairSeenA 200000)
      = some ⟨AlertType.HIGH_VOLUME, pairSeenA 200000, 2⟩ := by
  refine ⟨by norm_num [cfgW], ?_⟩
  exact ((volume_spike_gate_baseline cfgW (PrevMap.empty.set "A" 100000) (pairSeenA 200000)
      (by norm_num [cfgW])).2.2 200000 100000 rfl (by norm_num [cfgW, pairSeenA])
      (by norm_num [PrevMap.empty, PrevMap.set, pairSeenA])).1 (by norm_num)

/-!
Claim C4: the new-pair rule.  The claim fails on the code: the
liquidity guard is the Python truthiness test
`if pair.liquidity_usd and pair.liquidity_usd < config.MIN_LIQUIDITY_USD`,
and a known liquidity of exactly 0 is falsy, so it is not rejected.
-/

/-- C4 counterexample: a pair whose known liquidity is 0, below the
configured minimum of 100, with unknown age, does produce a NewPair
alert, contradicting the claim that a known liquidity below the
minimum, including the value 0, never produces one. -/
theorem new_pair_zero_liquidity_alerts :
    zeroLiqPair.liquidity_usd = some 0 ∧ (0:ℚ) < cfgW.MIN_LIQUIDITY_USD ∧
    check_new_pair cfgW 0 zeroLiqPair = some ⟨AlertType.NEW_PAIR, zeroLiqPair, 2⟩ := by
  refine ⟨rfl, by norm_num [cfgW], ?_⟩
  norm_num [check_new_pair, zeroLiqPair, optTruthy, get_age_minutes]

/-- C4 amended: the rule emits no alert when liquidity is known,
nonzero and below the configured minimum (a known liquidity of exactly
0 is falsy in Python and is treated like absent liquidity, so it does
not reject), emits no alert when the age is known and exceeds the
window, and in every remaining case, including unknown age, emits the
NewPair alert at priority 2. -/
theorem new_pair_gating (cfg : Config) (now : ℚ) (pair : TokenPair) :
    (∀ l, pair.liquidity_usd = some l → l ≠ 0 → l < cfg.MIN_LIQUIDITY_USD →
      check_new_pair cfg now pair = none) ∧
    (∀ a, get_age_minutes now pair = some a → cfg.NEW_PAIR_AGE_MINUTES < a →
      check_new_pair cfg now pair = none) ∧
    (¬ (∃ l, pair.liquidity_usd = some l ∧ l ≠ 0 ∧ l < cfg.MIN_LIQUIDITY_USD) →
     ¬ (∃ a, get_age_minutes now pair = some a ∧ cfg.NEW_PAIR_AGE_MINUTES < a) →
      check_new_pair cfg now pair = some ⟨AlertType.NEW_PAIR, pair, 2⟩) := by
  refine ⟨?_, ?_, ?_⟩
  · intro l hl hl0 hlt
    simp [check_new_pair, hl, optTruthy, hl0, hlt]
  · intro a ha hgt
    unfold check_new_pair
    split
    · rfl
    · rw [ha]
      simp [hgt]
  · intro hliq hage
    have hguard : ¬ (optTruthy pair.liquidity_usd = true ∧
        pair.liquidity_usd.getD 0 < cfg.MIN_LIQUIDITY_USD) := by
      rintro ⟨ht, hlt⟩
      rcases hp : pair.liquidity_usd with _ | l
      · rw [hp] at ht
        simp [optTruthy] at ht
      · rw [hp] at ht hlt
        simp [optTruthy] at ht
        exact hliq ⟨l, hp, ht, by simpa using hlt⟩
    unfold check_new_pair
    rw [if_neg hguard]
    rcases hg : get_age_minutes now pair with _ | a
    · rfl
    · have : ¬ (a > cfg.NEW_PAIR_AGE_MINUTES) := by
        intro h
        exact hage ⟨a, hg, h⟩
      simp [this]

/-- Witness for C4 amended: known nonzero liquidity 50 below the
minimum 100 is rejected. -/
theorem new_pair_gating_w :
    lowLiqPair.liquidity_usd = some 50 ∧ (50:ℚ) ≠ 0 ∧ (50:ℚ) < cfgW.MIN_LIQUIDITY_USD ∧
    check_new_pair cfgW 0 lowLiqPair = none := by
  refine ⟨rfl, by norm_num, by norm_num [cfgW], ?_⟩
  exact (new_pair_gating cfgW 0 lowLiqPair).1 50 rfl (by norm_num) (by norm_num [cfgW])

/-!
Claim C8: empty fetch result or empty subscription list is a no-op.
-/

/-- C8: a cycle whose fetch returns the empty list, and a cycle whose
subscription list is empty, leave the previous-state maps and the seen
set unchanged and dispatch nothing. -/
theorem empty_fetch_or_no_subscriptions_noop (cfg : Config) (now : ℚ)
    (pairs : List TokenPair) (subs : List Subscription)
    (st : ServiceState) (db : DbState) :
    check_for_alerts cfg now [] subs st db = ⟨st, db, []⟩ ∧
    check_for_alerts cfg now pairs [] st db = ⟨st, db, []⟩ := by
  constructor
  · rfl
  · unfold check_for_alerts
    rcases pairs with _ | ⟨p, rest⟩
    · rfl
    · rfl

/-!
Claim C9: the fetch surfaces upstream failures as raised errors.  The
claim fails on the code: DexScreenerClient._make_request catches both
non-200 statuses and raised exceptions, logs, and returns None;
search_pairs turns None into the empty list, and get_all_megaeth_pairs
returns a plain empty list when every query fails, indistinguishable
from a genuinely empty result.
-/

/-- C9 counterexample: a raised request exception and a 500 response
both become None from make_request, and a fetch whose every query fails
returns the same plain empty list as a fetch whose every query
succeeds with no matching data, so the coordinator cannot tell failure
from no data. -/
theorem fetch_failure_indistinguishable_empty :
    make_request HttpOutcome.exn = none ∧
    make_request (HttpOutcome.ok 500 ⟨some [zeroLiqPair]⟩) = none ∧
    get_all_megaeth_pairs "megaeth" (fun _ => HttpOutcome.exn) = [] ∧
    get_all_megaeth_pairs "megaeth" (fun _ => HttpOutcome.ok 200 ⟨some []⟩) = [] := by
  refine ⟨rfl, rfl, rfl, rfl⟩

/-- Failed requests yield the empty pair list from search_pairs. -/
theorem search_pairs_of_failure (chain : String) (o : HttpOutcome)
    (h : make_request o = none) : search_pairs chain o = [] := by
  unfold search_pairs
  rw [h]

/-- C9 amended: every upstream failure, unavailable upstream or non-200
response alike, is caught and logged inside the client and propagates
to the coordinator as the empty list rather than a raised error; in
particular a cycle in which every search query fails receives exactly
the empty list, so the skip-cycle path is taken for failures as well as
for genuinely empty data. -/
theorem fetch_failures_become_empty_list (chain : String)
    (fetch : String → HttpOutcome)
    (h : ∀ q, make_request (fetch q) = none) :
    get_all_megaeth_pairs chain fetch = [] := by
  unfold get_all_megaeth_pairs search_queries
  simp [List.foldl, search_pairs_of_failure chain _ (h "WETH"),
    search_pairs_of_failure chain _ (h "ETH"),
    search_pairs_of_failure chain _ (h "USD"),
    search_pairs_of_failure chain _ (h "MEGA")]

/-- Witness for C9 amended: with every request raising, the fetch
returns the empty list. -/
theorem fetch_failures_become_empty_list_w :
    (∀ q, make_request ((fun _ : String => HttpOutcome.exn) q) = none) ∧
    get_all_megaeth_pairs "megaeth" (fun _ : String => HttpOutcome.exn) = [] :=
  ⟨fun _ => rfl, fetch_failures_become_empty_list "megaeth" _ (fun _ => rfl)⟩

/-!
Structural lemmas about the rules and the loop body, shared by the
cycle-level claims.
-/

/-- The new-pair rule only ever emits the NewPair alert of priority 2
for its own snapshot. -/
theorem check_new_pair_shape (cfg : Config) (now : ℚ) (pair : TokenPair)
    (a : TokenAlert) (h : check_new_pair cfg now pair = some a) :
    a = ⟨AlertType.NEW_PAIR, pair, 2⟩ := by
  unfold check_new_pair at h
  split at h
  · exact absurd h (by simp)
  · split at h
    · split at h
      · exact absurd h (by simp)
      · exact (Option.some_injective _ h).symm
    · exact (Option.some_injective _ h).symm

/-- The price-movement rule only ever emits PricePump at priority 3 or
PriceDump at priority 1 for its own snapshot. -/
theorem check_price_movement_shape (cfg : Config) (pair : TokenPair)
    (a : TokenAlert) (h : check_price_movement cfg pair = some a) :
    a = ⟨AlertType.PRICE_PUMP, pair, 3⟩ ∨ a = ⟨AlertType.PRICE_DUMP, pair, 1⟩ := by
  unfold check_price_movement at h
  split at h
  · exact absurd h (by simp)
  · split at h
    · exact Or.inl (Option.some_injective _ h).symm
    · split at h
      · exact Or.inr (Option.some_injective _ h).symm
      · exact absurd h (by simp)

/-- The volume-spike rule only ever emits HighVolume at priority 2 for
its own snapshot. -/
theorem check_volume_spike_shape (cfg : Config) (volumes : PrevMap) (pair : TokenPair)
    (a : TokenAlert) (h : check_volume_spike cfg volumes pair = some a) :
    a = ⟨AlertType.HIGH_VOLUME, pair, 2⟩ := by
  unfold check_volume_spike at h
  split at h
  · exact absurd h (by simp)
  · split at h
    · exact absurd h (by simp)
    · split at h
      · exact (Option.some_injective _ h).symm
      · exact absurd h (by simp)

/-- Membership after a mark-seen write is membership before it or
equality with the marked address. -/
theorem mark_token_seen_mem (db : DbState) (addr symbol name x : String) :
    x ∈ (mark_token_seen db addr symbol name).seen ↔ x = addr ∨ x ∈ db.seen := by
  unfold mark_token_seen
  split
  · constructor
    · exact Or.inr
    · rintro (rfl | h)
      · assumption
      · exact h
  · simp [or_comm]

/-- The state-update pass never changes the durable store. -/
theorem update_prev_db (acc : CycleAcc) (pair : TokenPair) :
    (update_prev acc pair).db = acc.db := by
  unfold update_prev
  split <;> dsimp only <;> split <;> rfl

/-- The state-update pass never changes the collected alerts. -/
theorem update_prev_alerts (acc : CycleAcc) (pair : TokenPair) :
    (update_prev acc pair).alerts = acc.alerts := by
  unfold update_prev
  split <;> dsimp only <;> split <;> rfl

/-- The state-update pass only writes the volume entry of its own
address. -/
theorem update_prev_volumes_ne (acc : CycleAcc) (pair : TokenPair) (x : String)
    (hx : x ≠ pair.pair_address) :
    (update_prev acc pair).volumes x = acc.volumes x := by
  unfold update_prev
  split <;> dsimp only <;> split <;> simp [PrevMap.set, hx]

/-- The state-update pass only writes the price entry of its own
address. -/
theorem update_prev_prices_ne (acc : CycleAcc) (pair : TokenPair) (x : String)
    (hx : x ≠ pair.pair_address) :
    (update_prev acc pair).prices x = acc.prices x := by
  unfold update_prev
  split <;> dsimp only <;> split <;> simp [PrevMap.set, hx]

/-- A present parsed price is written to its own entry by the
state-update pass. -/
theorem update_prev_prices_self (acc : CycleAcc) (pair : TokenPair) (q : ℚ)
    (h : pair.price_usd = some (PyStrFloat.parsed q)) :
    (update_prev acc pair).prices pair.pair_address = some q := by
  unfold update_prev
  rw [h]
  dsimp only
  split <;> simp [PrevMap.set]

/-- A present nonzero volume is written to its own entry by the
state-update pass. -/
theorem update_prev_volumes_self (acc : CycleAcc) (pair : TokenPair) (v : ℚ)
    (h : pair.volume_24h = some v) (h0 : v ≠ 0) :
    (update_prev acc pair).volumes pair.pair_address = some v := by
  unfold update_prev
  have ht : optTruthy pair.volume_24h = true := by simp [optTruthy, h, h0]
  rw [ht]
  split <;> dsimp only <;> simp [PrevMap.set, h]

/-- Rule evaluation never changes the previous-volumes map. -/
theorem eval_rules_volumes (cfg : Config) (now : ℚ) (seen_addresses : List String)
    (acc : CycleAcc) (pair : TokenPair) :
    (eval_rules cfg now seen_addresses acc pair).volumes = acc.volumes := by
  unfold eval_rules
  split
  · split <;> dsimp only <;> split <;> rfl
  · split <;> rfl

/-- Rule evaluation never changes the previous-prices map. -/
theorem eval_rules_prices (cfg : Config) (now : ℚ) (seen_addresses : List String)
    (acc : CycleAcc) (pair : TokenPair) :
    (eval_rules cfg now seen_addresses acc pair).prices = acc.prices := by
  unfold eval_rules
  split
  · split <;> dsimp only <;> split <;> rfl
  · split <;> rfl

/-- One rule-evaluation step appends exactly the alerts of the three
rules evaluated against the membership snapshot and the current
accumulator volumes. -/
theorem eval_rules_alerts (cfg : Config) (now : ℚ) (seen_addresses : List String)
    (acc : CycleAcc) (pair : TokenPair) :
    (eval_rules cfg now seen_addresses acc pair).alerts =
      acc.alerts ++ rule_alerts_precycle cfg now seen_addresses acc.volumes pair := by
  unfold eval_rules rule_alerts_precycle
  split
  · rcases hp : check_price_movement cfg pair with _ | a <;>
      rcases hv : check_volume_spike cfg acc.volumes pair with _ | b <;>
      simp [hp, hv]
  · rcases hn : check_new_pair cfg now pair with _ | a <;> simp [hn]

/-- The durable store after one rule-evaluation step: marked exactly
when the pair is unseen and the new-pair rule fired. -/
theorem eval_rules_db (cfg : Config) (now : ℚ) (seen_addresses : List String)
    (acc : CycleAcc) (pair : TokenPair) :
    (eval_rules cfg now seen_addresses acc pair).db =
      if pair.pair_address ∉ seen_addresses ∧ (check_new_pair cfg now pair).isSome then
        mark_token_seen acc.db pair.pair_address pair.base_token_symbol pair.base_token_name
      else acc.db := by
  unfold eval_rules
  by_cases hm : pair.pair_address ∈ seen_addresses
  · rw [if_pos hm, if_neg (by simp [hm])]
    rcases hp : check_price_movement cfg pair with _ | a <;>
      rcases hv : check_volume_spike cfg acc.volumes pair with _ | b <;>
      simp [hp, hv]
  · rw [if_neg hm]
    rcases hn : check_new_pair cfg now pair with _ | a
    · rw [if_neg (by simp [hn])]
    · rw [if_pos (by simp [hm, hn])]

/-- Every alert produced by one rule-evaluation pass carries the
snapshot it was produced from, a seen snapshot only produces the
non-new-pair types, and an unseen snapshot only produces NewPair. -/
theorem rule_alerts_precycle_shape (cfg : Config) (now : ℚ)
    (seen_addresses : List String) (vol0 : PrevMap) (pair : TokenPair)
    (a : TokenAlert) (ha : a ∈ rule_alerts_precycle cfg now seen_addresses vol0 pair) :
    a.pair = pair ∧
    (if pair.pair_address ∈ seen_addresses then a.alert_type ≠ AlertType.NEW_PAIR
     else a.alert_type = AlertType.NEW_PAIR) := by
  unfold rule_alerts_precycle at ha
  by_cases hm : pair.pair_address ∈ seen_addresses
  · rw [if_pos hm] at ha
    rw [if_pos hm]
    rcases List.mem_append.mp ha with h | h
    · rcases hp : check_price_movement cfg pair with _ | b
      · rw [hp] at h; simp at h
      · rw [hp] at h
        simp only [Option.toList_some, List.mem_singleton] at h
        rw [h]
        rcases check_price_movement_shape cfg pair b hp with rfl | rfl <;>
          exact ⟨rfl, by simp [AlertType.PRICE_PUMP, AlertType.PRICE_DUMP, AlertType.NEW_PAIR]⟩
    · rcases hv : check_volume_spike cfg vol0 pair with _ | b
      · rw [hv] at h; simp at h
      · rw [hv] at h
        simp only [Option.toList_some, List.mem_singleton] at h
        rw [h]
        rw [check_volume_spike_shape cfg vol0 pair b hv]
        exact ⟨rfl, by simp [AlertType.HIGH_VOLUME, AlertType.NEW_PAIR]⟩
  · rw [if_neg hm] at ha
    rw [if_neg hm]
    rcases hn : check_new_pair cfg now pair with _ | b
    · rw [hn] at ha; simp at ha
    · rw [hn] at ha
      simp only [Option.toList_some, List.mem_singleton] at ha
      rw [ha]
      rw [check_new_pair_shape cfg now pair b hn]
      exact ⟨rfl, rfl⟩

/-!
Claim C1: seen pairs never re-alert as new, and the mark-seen write
happens exactly for emitted NewPair alerts.
-/

/-- C1: in one cycle, no alert for an address already in the seen set
loaded at the start of the cycle is a NewPair alert, and an address is
in the seen set after the cycle exactly when it was there before or a
NewPair alert for it was emitted in this cycle; hence an unseen pair
rejected by the new-pair filters is not marked and stays eligible. -/
theorem newpair_dedup_mark_seen (cfg : Config) (now : ℚ) (pairs : List TokenPair)
    (subs : List Subscription) (st : ServiceState) (db : DbState) :
    (∀ a ∈ (check_for_alerts cfg now pairs subs st db).dispatched,
        a.pair.pair_address ∈ db.seen → a.alert_type ≠ AlertType.NEW_PAIR) ∧
    (∀ x, x ∈ (check_for_alerts cfg now pairs subs st db).db.seen ↔
        x ∈ db.seen ∨ ∃ a ∈ (check_for_alerts cfg now pairs subs st db).dispatched,
          a.alert_type = AlertType.NEW_PAIR ∧ a.pair.pair_address = x) := by
  unfold check_for_alerts
  by_cases hp : pairs.isEmpty
  · simp [hp]
  · rw [if_neg hp]
    by_cases hs : subs.isEmpty
    · simp [hs]
    · rw [if_neg hs]
      simp only
      have := List.foldlRecOn pairs (process_pair cfg now db.seen)
        (⟨st.previous_prices, st.previous_volumes, db, []⟩ : CycleAcc)
        (motive := fun acc =>
          (∀ a ∈ acc.alerts, a.pair.pair_address ∈ db.seen →
              a.alert_type ≠ AlertType.NEW_PAIR) ∧
          (∀ x, x ∈ acc.db.seen ↔ x ∈ db.seen ∨
              ∃ a ∈ acc.alerts, a.alert_type = AlertType.NEW_PAIR ∧
                a.pair.pair_address = x))
        ⟨by simp, by simp⟩
        ?step
      · exact this
      · intro acc ih pair _
        obtain ⟨ih1, ih2⟩ := ih
        unfold process_pair
        constructor
        · intro a ha hmem
          rw [update_prev_alerts, eval_rules_alerts] at ha
          rcases List.mem_append.mp ha with h | h
          · exact ih1 a h hmem
          · obtain ⟨hap, hty⟩ := rule_alerts_precycle_shape cfg now db.seen
              acc.volumes pair a h
            rw [hap] at hmem
            rw [if_pos hmem] at hty
            exact hty
        · intro x
          rw [update_prev_db, update_prev_alerts, eval_rules_db, eval_rules_alerts]
          by_cases hc : pair.pair_address ∉ db.seen ∧ (check_new_pair cfg now pair).isSome
          · rw [if_pos hc]
            obtain ⟨hunseen, hsome⟩ := hc
            obtain ⟨b, hb⟩ := Option.isSome_iff_exists.mp hsome
            have hbshape := check_new_pair_shape cfg now pair b hb
            rw [mark_token_seen_mem, ih2]
            constructor
            · rintro (rfl | hx | ⟨a, ha, hty, haddr⟩)
              · refine Or.inr ⟨b, ?_, ?_, ?_⟩
                · rw [List.mem_append]
                  right
                  unfold rule_alerts_precycle
                  rw [if_neg hunseen, hb]
                  simp
                · rw [hbshape]
                · rw [hbshape]
              · exact Or.inl hx
              · exact Or.inr ⟨a, List.mem_append_left _ ha, hty, haddr⟩
            · rintro (hx | ⟨a, ha, hty, haddr⟩)
              · exact Or.inr (Or.inl hx)
              · rcases List.mem_append.mp ha with h | h
                · exact Or.inr (Or.inr ⟨a, h, hty, haddr⟩)
                · obtain ⟨hap, _⟩ := rule_alerts_precycle_shape cfg now db.seen
                    acc.volumes pair a h
                  rw [← haddr, hap]
                  exact Or.inl rfl
          · rw [if_neg hc]
            rw [ih2]
            constructor
            · rintro (hx | ⟨a, ha, hty, haddr⟩)
              · exact Or.inl hx
              · exact Or.inr ⟨a, List.mem_append_left _ ha, hty, haddr⟩
            · rintro (hx | ⟨a, ha, hty, haddr⟩)
              · exact Or.inl hx
              · rcases List.mem_append.mp ha with h | h
                · exact Or.inr ⟨a, h, hty, haddr⟩
                · obtain ⟨hap, hshape⟩ := rule_alerts_precycle_shape cfg now db.seen
                    acc.volumes pair a h
                  by_cases hm : pair.pair_address ∈ db.seen
                  · rw [if_pos hm] at hshape
                    exact absurd hty hshape
                  · rw [if_neg hm] at hshape
                    exfalso
                    apply hc
                    refine ⟨hm, ?_⟩
                    unfold rule_alerts_precycle at h
                    rw [if_neg hm] at h
                    rcases hn : check_new_pair cfg now pair with _ | b
                    · rw [hn] at h; simp at h
                    · simp [hn]

/-- Witness for C1: one unseen qualifying pair and one seen address; the
membership characterization instantiated at the fresh address. -/
theorem newpair_dedup_mark_seen_w :
    "Z" ∈ (check_for_alerts cfgW 0 [zeroLiqPair] ["s"] ServiceState.empty
        ⟨["A"]⟩).db.seen ↔
      "Z" ∈ (["A"] : List String) ∨
      ∃ a ∈ (check_for_alerts cfgW 0 [zeroLiqPair] ["s"] ServiceState.empty
          ⟨["A"]⟩).dispatched,
        a.alert_type = AlertType.NEW_PAIR ∧ a.pair.pair_address = "Z" :=
  (newpair_dedup_mark_seen cfgW 0 [zeroLiqPair] ["s"] ServiceState.empty ⟨["A"]⟩).2 "Z"

/-!
Claim C10: seen or unseen classification comes only from the seen set
loaded at the start of the cycle.
-/

/-- New-pair alerts contributed by one pair under the pre-cycle view:
none when the pair is classified seen, the new-pair rule output when it
is classified unseen. -/
theorem rule_alerts_precycle_newpair_filter (cfg : Config) (now : ℚ)
    (seen_addresses : List String) (vol0 : PrevMap) (p : TokenPair) :
    (rule_alerts_precycle cfg now seen_addresses vol0 p).filter
        (fun a => a.alert_type == AlertType.NEW_PAIR)
      = if p.pair_address ∈ seen_addresses then []
        else (check_new_pair cfg now p).toList := by
  unfold rule_alerts_precycle
  by_cases hm : p.pair_address ∈ seen_addresses
  · rw [if_pos hm, if_pos hm]
    rcases hp : check_price_movement cfg p with _ | a <;>
      rcases hv : check_volume_spike cfg vol0 p with _ | b
    · simp
    · rw [check_volume_spike_shape cfg vol0 p b hv]
      simp [AlertType.HIGH_VOLUME, AlertType.NEW_PAIR]
    · rcases check_price_movement_shape cfg p a hp with rfl | rfl <;>
        simp [AlertType.PRICE_PUMP, AlertType.PRICE_DUMP, AlertType.NEW_PAIR]
    · rw [check_volume_spike_shape cfg vol0 p b hv]
      rcases check_price_movement_shape cfg p a hp with rfl | rfl <;>
        simp [AlertType.PRICE_PUMP, AlertType.PRICE_DUMP, AlertType.HIGH_VOLUME,
          AlertType.NEW_PAIR]
  · rw [if_neg hm, if_neg hm]
    rcases hn : check_new_pair cfg now p with _ | a
    · simp
    · rw [check_new_pair_shape cfg now p a hn]
      simp

/-- The new-pair alerts collected by the loop are exactly the new-pair
rule outputs of the snapshots classified unseen by the set loaded at
the start, independent of any mid-cycle write. -/
theorem foldl_newpair_filter (cfg : Config) (now : ℚ) (seen_addresses : List String) :
    ∀ (pairs : List TokenPair) (acc : CycleAcc),
      (pairs.foldl (process_pair cfg now seen_addresses) acc).alerts.filter
          (fun a => a.alert_type == AlertType.NEW_PAIR)
        = acc.alerts.filter (fun a => a.alert_type == AlertType.NEW_PAIR) ++
          (pairs.filter (fun p => decide (p.pair_address ∉ seen_addresses))).filterMap
            (check_new_pair cfg now) := by
  intro pairs
  induction pairs with
  | nil => intro acc; simp
  | cons p rest ih =>
    intro acc
    rw [List.foldl_cons, ih]
    unfold process_pair
    rw [update_prev_alerts, eval_rules_alerts, List.filter_append,
      rule_alerts_precycle_newpair_filter]
    by_cases hm : p.pair_address ∈ seen_addresses
    · rw [if_pos hm]
      simp [hm]
    · rw [if_neg hm]
      rcases hn : check_new_pair cfg now p with _ | a <;>
        simp [hn, hm, List.filter_cons, List.append_assoc]

/-- C10: the seen or unseen classification of every snapshot in a cycle
is decided solely by the seen set loaded at the start of the cycle, so
the NewPair alerts dispatched are exactly the new-pair rule outputs of
the snapshots outside that set, in list order; marking a pair seen
mid-cycle does not reclassify later snapshots, and a duplicated unseen
address has the rule evaluated for each occurrence. -/
theorem newpair_classification_precycle_seen (cfg : Config) (now : ℚ)
    (pairs : List TokenPair) (subs : List Subscription) (st : ServiceState)
    (db : DbState) (hsubs : subs ≠ []) :
    (check_for_alerts cfg now pairs subs st db).dispatched.filter
        (fun a => a.alert_type == AlertType.NEW_PAIR)
      = (pairs.filter (fun p => decide (p.pair_address ∉ db.seen))).filterMap
          (check_new_pair cfg now) := by
  unfold check_for_alerts
  by_cases hp : pairs.isEmpty
  · obtain rfl := List.isEmpty_iff.mp hp
    simp
  · rw [if_neg hp, if_neg (by simpa using hsubs)]
    simpa using foldl_newpair_filter cfg now db.seen pairs
      ⟨st.previous_prices, st.previous_volumes, db, []⟩

/-- Witness for C10: a cycle whose snapshot list contains the same
unseen qualifying address twice dispatches two NewPair alerts for it. -/
theorem newpair_classification_precycle_seen_w :
    (["s"] : List Subscription) ≠ [] ∧
    (check_for_alerts cfgW 0 [zeroLiqPair, zeroLiqPair] ["s"] ServiceState.empty
        ⟨["A"]⟩).dispatched.filter (fun a => a.alert_type == AlertType.NEW_PAIR)
      = [⟨AlertType.NEW_PAIR, zeroLiqPair, 2⟩, ⟨AlertType.NEW_PAIR, zeroLiqPair, 2⟩] := by
  refine ⟨by simp, ?_⟩
  rw [newpair_classification_precycle_seen cfgW 0 [zeroLiqPair, zeroLiqPair] ["s"]
    ServiceState.empty ⟨["A"]⟩ (by simp)]
  rfl

/-!
Claim C7: all rule reads happen before any previous-state write of the
same cycle.  The claim fails on the code: writes happen per pair inside
the loop, and with a duplicated address the later occurrence reads the
write made for the earlier one.  With pairwise-distinct addresses,
which get_all_megaeth_pairs guarantees by its dedup, every evaluation
does read pre-cycle state.
-/

/-- The volume-spike rule reads the previous-volumes map only at its
own address. -/
theorem check_volume_spike_congr (cfg : Config) (m m' : PrevMap) (p : TokenPair)
    (h : m p.pair_address = m' p.pair_address) :
    check_volume_spike cfg m p = check_volume_spike cfg m' p := by
  unfold check_volume_spike
  rw [h]

/-- The per-pair rule outputs depend on the previous-volumes map only
at the address of the pair. -/
theorem rule_alerts_precycle_congr (cfg : Config) (now : ℚ)
    (seen_addresses : List String) (m m' : PrevMap) (p : TokenPair)
    (h : m p.pair_address = m' p.pair_address) :
    rule_alerts_precycle cfg now seen_addresses m p
      = rule_alerts_precycle cfg now seen_addresses m' p := by
  unfold rule_alerts_precycle
  rw [check_volume_spike_congr cfg m m' p h]

/-- Loop alerts under pairwise-distinct addresses: every rule reads the
pre-cycle volumes map, so the collected alerts are exactly the
pre-cycle evaluation in pair order. -/
theorem foldl_alerts_precycle (cfg : Config) (now : ℚ)
    (seen_addresses : List String) (vol0 : PrevMap) :
    ∀ (pairs : List TokenPair) (acc : CycleAcc),
      (pairs.map TokenPair.pair_address).Nodup →
      (∀ p ∈ pairs, acc.volumes p.pair_address = vol0 p.pair_address) →
      (pairs.foldl (process_pair cfg now seen_addresses) acc).alerts
        = acc.alerts ++ alerts_precycle cfg now seen_addresses vol0 pairs := by
  intro pairs
  induction pairs with
  | nil => intro acc _ _; simp [alerts_precycle]
  | cons p rest ih =>
    intro acc hnd hvol
    rw [List.map_cons, List.nodup_cons] at hnd
    obtain ⟨hpn, hndr⟩ := hnd
    rw [List.foldl_cons]
    rw [ih (process_pair cfg now seen_addresses acc p) hndr ?agree]
    case agree =>
      intro q hq
      have hne : q.pair_address ≠ p.pair_address := by
        intro h
        exact hpn (h ▸ List.mem_map_of_mem TokenPair.pair_address hq)
      unfold process_pair
      rw [update_prev_volumes_ne _ _ _ hne, eval_rules_volumes]
      exact hvol q (List.mem_cons_of_mem p hq)
    unfold process_pair
    rw [update_prev_alerts, eval_rules_alerts,
      rule_alerts_precycle_congr cfg now seen_addresses acc.volumes vol0 p
        (hvol p (List.mem_cons_self p rest))]
    show _ = acc.alerts ++ alerts_precycle cfg now seen_addresses vol0 (p :: rest)
    unfold alerts_precycle
    simp [List.append_assoc]

/-- C7 counterexample: with the same seen address appearing twice in
one snapshot list, the volume-spike rule evaluated against the
pre-cycle map yields nothing for the second occurrence (no baseline was
recorded before the cycle), yet the cycle dispatches a HighVolume alert
for it: the write performed for the first occurrence was read by the
second evaluation in the same cycle. -/
theorem intra_cycle_write_affects_evaluation :
    check_volume_spike cfgW ServiceState.empty.previous_volumes (pairSeenA 200000) = none ∧
    (⟨AlertType.HIGH_VOLUME, pairSeenA 200000, 2⟩ : TokenAlert) ∈
      (check_for_alerts cfgW 0 [pairSeenA 100000, pairSeenA 200000] ["s"]
        ServiceState.empty ⟨["A"]⟩).dispatched := by
  constructor
  · norm_num [check_volume_spike, optTruthy, ServiceState.empty, PrevMap.empty, cfgW,
      pairSeenA]
  · norm_num [check_for_alerts, process_pair, eval_rules, update_prev,
      check_price_movement, check_volume_spike, check_new_pair, optTruthy,
      PrevMap.set, PrevMap.empty, ServiceState.empty, cfgW, pairSeenA,
      AlertType.HIGH_VOLUME, AlertType.PRICE_PUMP]

/-- C7 amended: writes for a pair are performed only after that pair
was evaluated, so when all addresses in the fetched list are pairwise
distinct, as get_all_megaeth_pairs guarantees by its address dedup,
every rule evaluation of the cycle reads the pre-cycle PreviousState
and the dispatched alerts equal the pre-cycle evaluation; a duplicated
address, however, has its later occurrence read the write made for the
earlier one. -/
theorem precycle_reads_distinct_addresses (cfg : Config) (now : ℚ)
    (pairs : List TokenPair) (subs : List Subscription) (st : ServiceState)
    (db : DbState) (hnd : (pairs.map TokenPair.pair_address).Nodup)
    (hsubs : subs ≠ []) :
    (check_for_alerts cfg now pairs subs st db).dispatched
      = alerts_precycle cfg now db.seen st.previous_volumes pairs := by
  unfold check_for_alerts
  by_cases hp : pairs.isEmpty
  · obtain rfl := List.isEmpty_iff.mp hp
    simp [alerts_precycle]
  · rw [if_neg hp, if_neg (by simpa using hsubs)]
    simpa using foldl_alerts_precycle cfg now db.seen st.previous_volumes pairs
      ⟨st.previous_prices, st.previous_volumes, db, []⟩ hnd (fun p _ => rfl)

/-- Witness for C7 amended: a singleton list has distinct addresses and
its dispatched alerts equal the pre-cycle evaluation. -/
theorem precycle_reads_distinct_addresses_w :
    ([pairSeenA 100000].map TokenPair.pair_address).Nodup ∧
    (["s"] : List Subscription) ≠ [] ∧
    (check_for_alerts cfgW 0 [pairSeenA 100000] ["s"] ServiceState.empty
        ⟨["A"]⟩).dispatched
      = alerts_precycle cfgW 0 ["A"] ServiceState.empty.previous_volumes
          [pairSeenA 100000] :=
  ⟨by simp, by simp,
    precycle_reads_distinct_addresses cfgW 0 [pairSeenA 100000] ["s"]
      ServiceState.empty ⟨["A"]⟩ (by simp) (by simp)⟩

/-!
Claim C5: previous-state updates.  The claim fails on the code: the
writes are guarded by Python truthiness, so a present volume of exactly
0 (and an absent or unparseable price) is not written and a stale entry
survives the cycle.
-/

/-- C5 counterexample: a processed snapshot whose current 24h volume is
present and equal to 0 leaves the stale previous-volume entry of an
earlier cycle in place, so PreviousState does not hold that cycle
volume for the pair. -/
theorem state_update_zero_volume_keeps_stale :
    zeroVolPair.volume_24h = some 0 ∧
    (check_for_alerts cfgW 0 [zeroVolPair] ["s"] stalePrev
        ⟨["A"]⟩).st.previous_volumes "A" = some 100 ∧
    (check_for_alerts cfgW 0 [zeroVolPair] ["s"] stalePrev
        ⟨["A"]⟩).st.previous_volumes "A" ≠ some 0 := by
  refine ⟨rfl, ?_, ?_⟩ <;>
    norm_num [check_for_alerts, process_pair, eval_rules, update_prev,
      check_price_movement, check_volume_spike, optTruthy, PrevMap.set,
      PrevMap.empty, stalePrev, cfgW, zeroVolPair]

/-- Previous-price entries at an address are untouched by loop
iterations over pairs with other addresses. -/
theorem foldl_process_prices_ne (cfg : Config) (now : ℚ)
    (seen_addresses : List String) (x : String) :
    ∀ (l : List TokenPair) (acc : CycleAcc), (∀ p ∈ l, p.pair_address ≠ x) →
      (l.foldl (process_pair cfg now seen_addresses) acc).prices x = acc.prices x := by
  intro l
  induction l with
  | nil => intro acc _; rfl
  | cons p rest ih =>
    intro acc hne
    rw [List.foldl_cons, ih _ (fun q hq => hne q (List.mem_cons_of_mem p hq))]
    unfold process_pair
    rw [update_prev_prices_ne _ _ _ (Ne.symm (hne p (List.mem_cons_self p rest))),
      eval_rules_prices]

/-- Previous-volume entries at an address are untouched by loop
iterations over pairs with other addresses. -/
theorem foldl_process_volumes_ne (cfg : Config) (now : ℚ)
    (seen_addresses : List String) (x : String) :
    ∀ (l : List TokenPair) (acc : CycleAcc), (∀ p ∈ l, p.pair_address ≠ x) →
      (l.foldl (process_pair cfg now seen_addresses) acc).volumes x = acc.volumes x := by
  intro l
  induction l with
  | nil => intro acc _; rfl
  | cons p rest ih =>
    intro acc hne
    rw [List.foldl_cons, ih _ (fun q hq => hne q (List.mem_cons_of_mem p hq))]
    unfold process_pair
    rw [update_prev_volumes_ne _ _ _ (Ne.symm (hne p (List.mem_cons_self p rest))),
      eval_rules_volumes]

/-- C5 amended: after any non-skipped cycle over snapshots with
pairwise-distinct addresses, for every processed snapshot whose price
is present and parses as a float the previous-price entry holds that
price, and for every snapshot whose 24h volume is present and nonzero
the previous-volume entry holds that volume, in both cases regardless
of whether any rule fired; a present value of 0 or an unparseable price
is falsy in Python and is not written, leaving any stale entry in
place. -/
theorem state_update_present_values (cfg : Config) (now : ℚ)
    (pairs : List TokenPair) (subs : List Subscription) (st : ServiceState)
    (db : DbState) (hnd : (pairs.map TokenPair.pair_address).Nodup)
    (hsubs : subs ≠ []) :
    ∀ pair ∈ pairs,
      (∀ q, pair.price_usd = some (PyStrFloat.parsed q) →
        (check_for_alerts cfg now pairs subs st db).st.previous_prices
          pair.pair_address = some q) ∧
      (∀ v, pair.volume_24h = some v → v ≠ 0 →
        (check_for_alerts cfg now pairs subs st db).st.previous_volumes
          pair.pair_address = some v) := by
  intro pair hmem
  obtain ⟨s, t, rfl⟩ := List.append_of_mem hmem
  have hp : ¬ (s ++ pair :: t).isEmpty := by simp
  have htne : ∀ q ∈ t, q.pair_address ≠ pair.pair_address := by
    have h1 : (List.map TokenPair.pair_address s ++
        pair.pair_address :: List.map TokenPair.pair_address t).Nodup := by
      simpa using hnd
    have h2 := (List.nodup_cons.mp h1.of_append_right).1
    intro q hq h
    exact h2 (h ▸ List.mem_map_of_mem TokenPair.pair_address hq)
  unfold check_for_alerts
  rw [if_neg hp, if_neg (by simpa using hsubs)]
  simp only [List.foldl_append, List.foldl_cons]
  constructor
  · intro q hq
    rw [foldl_process_prices_ne cfg now db.seen pair.pair_address t _ htne]
    unfold process_pair
    exact update_prev_prices_self _ pair q hq
  · intro v hv hv0
    rw [foldl_process_volumes_ne cfg now db.seen pair.pair_address t _ htne]
    unfold process_pair
    exact update_prev_volumes_self _ pair v hv hv0

/-- Witness for C5 amended: a seen pair with parsed price 5 and nonzero
volume 100000 has both entries updated by the cycle. -/
theorem state_update_present_values_w :
    (check_for_alerts cfgW 0 [pairSeenA 100000] ["s"] ServiceState.empty
        ⟨["A"]⟩).st.previous_prices "A" = some 5 ∧
    (check_for_alerts cfgW 0 [pairSeenA 100000] ["s"] ServiceState.empty
        ⟨["A"]⟩).st.previous_volumes "A" = some 100000 := by
  have h := state_update_present_values cfgW 0 [pairSeenA 100000] ["s"]
    ServiceState.empty ⟨["A"]⟩ (by simp) (by simp) (pairSeenA 100000)
    (List.mem_singleton.mpr rfl)
  exact ⟨h.1 5 rfl, h.2 100000 rfl (by norm_num)⟩

/-!
Claim C6: stop takes effect only between cycles.  The claim fails on
the code: stop calls cancel() on the task unconditionally, and under
asyncio the CancelledError is delivered at the suspension point where
the task currently sits, which may be in the middle of a cycle; the
`except Exception` handler of _monitor_loop does not catch
CancelledError, so an in-flight cycle is abandoned there rather than
run to completion.
-/

/-- With no in-cycle cancellation pending, one cancellable loop step is
exactly one loop step. -/
theorem pair_step_cancel_none (cfg : Config) (now : ℚ)
    (seen_addresses : List String) (acc : CycleAcc) (pair : TokenPair) :
    pair_step_cancel cfg now seen_addresses ⟨acc, none, false⟩ pair
      = ⟨process_pair cfg now seen_addresses acc pair, none, false⟩ := by
  unfold pair_step_cancel
  simp only [Bool.false_eq_true, if_false]
  split
  · rfl
  · rcases hn : check_new_pair cfg now pair with _ | a <;> simp [hn, awaitStep]

/-- With no in-cycle cancellation pending, the cancellable pair loop is
the plain pair loop. -/
theorem foldl_pair_step_cancel_none (cfg : Config) (now : ℚ)
    (seen_addresses : List String) :
    ∀ (l : List TokenPair) (acc : CycleAcc),
      l.foldl (pair_step_cancel cfg now seen_addresses) ⟨acc, none, false⟩
        = ⟨l.foldl (process_pair cfg now seen_addresses) acc, none, false⟩ := by
  intro l
  induction l with
  | nil => intro acc; rfl
  | cons p rest ih =>
    intro acc
    rw [List.foldl_cons, pair_step_cancel_none, ih, List.foldl_cons]

/-- With no in-cycle cancellation pending, every collected alert is
delivered. -/
theorem send_loop_cancel_none :
    ∀ (l : List TokenAlert), send_loop_cancel l none = (l, none, false) := by
  intro l
  induction l with
  | nil => rfl
  | cons a rest ih =>
    unfold send_loop_cancel
    simp [awaitStep, ih]

/-- C6 counterexample: for a concrete cycle that, run to completion,
records a volume baseline and dispatches an alert, a stop request that
finds the task suspended at the first await of the cycle (the fetch)
aborts the cycle with no state update and no dispatch: the in-flight
cycle does not run to its natural completion, contradicting the claim
that stop never interrupts a cycle mid-flight. -/
theorem stop_midcycle_aborts_cycle :
    check_for_alerts_cancel cfgW 0 [pairSeenA 100000] ["s"] ServiceState.empty
        ⟨["A"]⟩ (some 0)
      = (⟨ServiceState.empty, ⟨["A"]⟩, []⟩, false) ∧
    (check_for_alerts_cancel cfgW 0 [pairSeenA 100000] ["s"] ServiceState.empty
        ⟨["A"]⟩ none).2 = true ∧
    (check_for_alerts_cancel cfgW 0 [pairSeenA 100000] ["s"] ServiceState.empty
        ⟨["A"]⟩ none).1.st.previous_volumes "A" = some 100000 ∧
    (check_for_alerts_cancel cfgW 0 [pairSeenA 100000] ["s"] ServiceState.empty
        ⟨["A"]⟩ (some 0)).1.st.previous_volumes "A" = none := by
  refine ⟨rfl, ?_, ?_, rfl⟩ <;>
    norm_num [check_for_alerts_cancel, pair_step_cancel, process_pair, eval_rules,
      update_prev, check_price_movement, check_volume_spike, check_new_pair,
      send_loop_cancel, awaitStep, optTruthy, PrevMap.set, PrevMap.empty,
      ServiceState.empty, cfgW, pairSeenA]

/-- C6 amended: stop cancels the monitor task at whichever await it is
suspended on; when the cancellation lands on the inter-cycle sleep the
previous cycle has run to completion with exactly the effects of
_check_for_alerts, but when it lands on an await inside the cycle, such
as the initial fetch, the cycle is abandoned at that point with no
state update and no dispatch. -/
theorem stop_cancellation_semantics (cfg : Config) (now : ℚ)
    (pairs : List TokenPair) (subs : List Subscription) (st : ServiceState)
    (db : DbState) :
    check_for_alerts_cancel cfg now pairs subs st db none
      = (check_for_alerts cfg now pairs subs st db, true) ∧
    check_for_alerts_cancel cfg now pairs subs st db (some 0)
      = (⟨st, db, []⟩, false) := by
  constructor
  · unfold check_for_alerts_cancel check_for_alerts
    simp only [awaitStep]
    by_cases hp : pairs.isEmpty
    · rw [if_pos hp, if_pos hp]
    · rw [if_neg hp, if_neg hp]
      by_cases hs : subs.isEmpty
      · rw [if_pos hs, if_pos hs]
      · rw [if_neg hs, if_neg hs]
        simp only [foldl_pair_step_cancel_none, send_loop_cancel_none,
          Bool.false_eq_true, if_false, Bool.not_false]
  · rfl

end Curur
